import Mathlib

/-!
Verification of the WAR-analyzer service (`src/api/main.py`).

The Python module is shallowly embedded: every function of the analysis
core is translated into an executable Lean definition that mirrors the
source statement by statement.  Machine-level details that no claim
touches (the floating-point `file_size_mb` field, wall-clock timestamps)
are abstracted: timestamps become `Option Unit` (present / absent) and the
size field is omitted.  A zip archive is modelled as
`Option (List String)`: `some entries` is an archive whose entry names
enumerate to `entries`, `none` is a container that cannot be opened
(`zipfile.BadZipFile`, whose message is the string
`File is not a zip file`).
-/

namespace WarAnalyzer

/-! ### String helpers mirroring the Python primitives used by the source -/

/-- Python `needle in haystack` on strings: contiguous substring test. -/
def hasSubstring (pat : List Char) : List Char → Bool
  | [] => pat.isPrefixOf ([] : List Char)
  | c :: rest => pat.isPrefixOf (c :: rest) || hasSubstring pat rest

/-- Python `s.endswith(suffix)`. -/
def strEndsWith (s suffix : String) : Bool :=
  suffix.data.isSuffixOf s.data

/-- Python `s.lower()` (ASCII case folding, all the source compares is ASCII). -/
def strToLower (s : String) : List Char :=
  s.data.map Char.toLower

/-- Python `os.path.basename`: the part of the path after the last slash. -/
def os_path_basename (p : String) : String :=
  String.mk (((p.data.reverse).takeWhile (fun c => c ≠ '/')).reverse)

/-! ### `re.search(r'(\d+\.\d+\.\d+)', s)`

The pattern has no ambiguity: a digit run can never absorb the literal
dot, so the greedy leftmost match of the Python engine is computed by
taking, at each start position from the left, the maximal digit runs. -/

/-- Try to match `\d+\.\d+\.\d+` anchored at the head of the list. -/
def matchVersionAt (l : List Char) : Option (List Char) :=
  let d1 := l.takeWhile Char.isDigit
  if d1.isEmpty then none else
  match l.dropWhile Char.isDigit with
  | '.' :: r2 =>
    let d2 := r2.takeWhile Char.isDigit
    if d2.isEmpty then none else
    match r2.dropWhile Char.isDigit with
    | '.' :: r3 =>
      let d3 := r3.takeWhile Char.isDigit
      if d3.isEmpty then none else some (d1 ++ '.' :: (d2 ++ '.' :: d3))
    | _ => none
  | _ => none

/-- Leftmost match of `\d+\.\d+\.\d+` in a string, as `re.search` returns it. -/
def reSearchVersion : List Char → Option (List Char)
  | [] => none
  | c :: rest =>
    match matchVersionAt (c :: rest) with
    | some m => some m
    | none => reSearchVersion rest

/-! ### Archive inspector (`SimplifiedWARAnalyzer.analyze_war_structure`) -/

/-- Extension the source counts compiled units by (`f.endswith('.class')`). -/
def compiledUnitExtension : String := ".class"

/-- Extension the source counts bundled libraries by (`f.endswith('.jar')`). -/
def libraryExtension : String := ".jar"

/-- The dictionary built by `analyze_war_structure` (*without* the
floating-point `file_size_mb` entry, which no claim mentions). -/
structure StructureInfo where
  file_name : String
  web_inf_found : Bool
  spring_detected : Bool
  spring_version : Option String
  total_classes : Nat
  total_jars : Nat
  jar_files : List String
deriving Repr, DecidableEq

/-- The filter the source applies to pick Spring jars:
`'spring' in f.lower() and f.endswith('.jar')`. -/
def isSpringJar (f : String) : Bool :=
  hasSubstring "spring".data (strToLower f) && strEndsWith f libraryExtension

/-- The `for jar in spring_jars: ... break` loop extracting the version. -/
def firstVersion : List String → Option String
  | [] => none
  | jar :: rest =>
    match reSearchVersion jar.data with
    | some v => some (String.mk v)
    | none => firstVersion rest

/-- Function `analyze_war_structure(war_file_path)`; the zip contents found at the
path are passed explicitly (`none` = the container cannot be opened, in
which case the `zipfile.BadZipFile` escapes the re-raising handler). -/
def analyze_war_structure (war_file_path : String)
    (archive : Option (List String)) : Except String StructureInfo :=
  match archive with
  | none => .error "File is not a zip file"
  | some file_list =>
    let s0 : StructureInfo :=
      { file_name := os_path_basename war_file_path
        web_inf_found := false
        spring_detected := false
        spring_version := none
        total_classes := 0
        total_jars := 0
        jar_files := [] }
    let s1 := if file_list.any (fun f => hasSubstring "WEB-INF".data f.data)
      then { s0 with web_inf_found := true } else s0
    let spring_jars := file_list.filter isSpringJar
    let s2 := if spring_jars.isEmpty then s1 else
      { s1 with
        spring_detected := true
        jar_files := spring_jars.take 5
        spring_version := firstVersion spring_jars }
    .ok { s2 with
      total_classes := (file_list.filter
        (fun f => strEndsWith f compiledUnitExtension)).length
      total_jars := (file_list.filter
        (fun f => strEndsWith f libraryExtension)).length }

/-! ### Heuristic estimators -/

/-- One element of the synthesized component list. -/
structure Component where
  name : String
  type : String
  package : String
  estimated : Bool
deriving Repr, DecidableEq

/-- The dictionary returned by `analyze_spring_components`. -/
structure ComponentsInfo where
  total_components : Nat
  controllers : Nat
  services : Nat
  repositories : Nat
  components : List Component
deriving Repr, DecidableEq

/-- Dictionary appended by the first loop (`components.append({...})`). -/
def mkController (i : Nat) : Component :=
  { name := "Controller" ++ toString (i + 1), type := "Controller"
    package := "com.nbs.web", estimated := true }

/-- Dictionary appended by the second loop (`components.append({...})`). -/
def mkService (i : Nat) : Component :=
  { name := "Service" ++ toString (i + 1), type := "Service"
    package := "com.nbs.service", estimated := true }

/-- Dictionary appended by the third loop (`components.append({...})`). -/
def mkRepository (i : Nat) : Component :=
  { name := "Repository" ++ toString (i + 1), type := "Repository"
    package := "com.nbs.dao", estimated := true }

/-- Function `analyze_spring_components(structure_info)`: the three `for i in
range(...)` loops appending to `components` are folds over `List.range`. -/
def analyze_spring_components (structure_info : StructureInfo) : ComponentsInfo :=
  let estimated_controllers := max 1 (structure_info.total_classes / 20)
  let estimated_services := max 1 (structure_info.total_classes / 15)
  let estimated_repositories := max 1 (structure_info.total_classes / 25)
  let components : List Component := []
  let components := (List.range estimated_controllers).foldl
    (fun acc i => acc ++ [mkController i]) components
  let components := (List.range estimated_services).foldl
    (fun acc i => acc ++ [mkService i]) components
  let components := (List.range estimated_repositories).foldl
    (fun acc i => acc ++ [mkRepository i]) components
  { total_components := components.length
    controllers := estimated_controllers
    services := estimated_services
    repositories := estimated_repositories
    components := components.take 10 }

/-- One element of the synthesized SQL-pattern list. -/
structure SqlPattern where
  file : String
  pattern_type : String
  sql_statement : String
  risk_level : String
  modernization_suggestion : String
deriving Repr, DecidableEq, Inhabited

/-- Rotation list `pattern_types` of `analyze_sql_patterns`. -/
def pattern_types : List String :=
  ["executeSQL", "createStatement().execute", "prepareStatement"]

/-- Rotation list `risk_levels` of `analyze_sql_patterns`. -/
def risk_levels : List String := ["HIGH", "CRITICAL", "MEDIUM"]

/-- Loop body of `analyze_sql_patterns` at index `i`. -/
def mkSqlPattern (i : Nat) : SqlPattern :=
  { file := "LegacyClass" ++ toString (i + 1) ++ ".java"
    pattern_type := (pattern_types.get! (i % pattern_types.length))
    sql_statement := "SELECT * FROM table_" ++ toString (i + 1) ++ " WHERE id = ?"
    risk_level := (risk_levels.get! (i % risk_levels.length))
    modernization_suggestion := "Replace with JPA Repository pattern" }

/-- Function `analyze_sql_patterns(structure_info)`. -/
def analyze_sql_patterns (structure_info : StructureInfo) : List SqlPattern :=
  let estimated_patterns := min 10 (max 1 (structure_info.total_classes / 10))
  (List.range estimated_patterns).foldl (fun acc i => acc ++ [mkSqlPattern i]) []

/-- One modernization suggestion. -/
structure Suggestion where
  category : String
  priority : String
  description : String
  specific_actions : List String
  estimated_effort : String
  business_value : String
deriving Repr, DecidableEq

/-- Function `generate_modernization_suggestions(components, sql_patterns)`. -/
def generate_modernization_suggestions (components : ComponentsInfo)
    (sql_patterns : List SqlPattern) : List Suggestion :=
  let suggestions : List Suggestion := []
  let suggestions := if sql_patterns.isEmpty then suggestions else
    suggestions ++ [{
      category := "資料存取層現代化"
      priority := "HIGH"
      description := "發現 " ++ toString sql_patterns.length ++
        " 個直接SQL執行模式，建議導入JPA/Hibernate"
      specific_actions := [
        "評估JPA 2.2導入可行性",
        "設計Entity類別對應COBOL資料結構",
        "建立Repository介面取代executeSQL",
        "分階段遷移關鍵業務模組"]
      estimated_effort := "4-6個月"
      business_value := "減少90%SQL錯誤，提升75%維護效率" }]
  let suggestions := if components.controllers > 0 then
    suggestions ++ [{
      category := "API層標準化"
      priority := "MEDIUM"
      description := "發現 " ++ toString components.controllers ++
        " 個Controller，建議實施RESTful API標準"
      specific_actions := [
        "統一JSON回應格式標準",
        "實施OpenAPI 3.0規格文件",
        "加入API版本管理策略",
        "改善錯誤處理與HTTP狀態碼"]
      estimated_effort := "2-3個月"
      business_value := "提升API一致性，改善前端整合效率50%" }]
    else suggestions
  suggestions

/-! ### Result assembler (`SimplifiedWARAnalyzer.analyze_war`) -/

/-- The `summary` sub-dictionary of the assembled result. -/
structure Summary where
  total_components : Nat
  sql_patterns_found : Nat
  high_priority_suggestions : Nat
  estimated_modernization_effort : String
  expected_roi : String
deriving Repr, DecidableEq

/-- The `result` dictionary assembled by `analyze_war` (the wall-clock
`analysis_time` and the constant `competitive_advantage` block carry no
program state and are omitted). -/
structure AnalysisResultRec where
  project_name : String
  war_info : StructureInfo
  spring_components : ComponentsInfo
  sql_patterns : List SqlPattern
  modernization_suggestions : List Suggestion
  summary : Summary
deriving Repr, DecidableEq

/-- Python `structure_info['file_name'].replace('.war', '')`: every
non-overlapping occurrence of `.war`, scanned left to right, is removed. -/
def stripWarAll : List Char → List Char
  | '.' :: 'w' :: 'a' :: 'r' :: rest => stripWarAll rest
  | c :: rest => c :: stripWarAll rest
  | [] => []

/-- Function `analyze_war(war_file_path)`, the main entry point: inspector, the two
estimators, suggestions, then assembly.  Only the inspector can raise;
the re-raising `except` block is the identity on the error. -/
def analyze_war (war_file_path : String) (archive : Option (List String)) :
    Except String AnalysisResultRec := do
  let structure_info ← analyze_war_structure war_file_path archive
  let components := analyze_spring_components structure_info
  let sql_patterns := analyze_sql_patterns structure_info
  let suggestions := generate_modernization_suggestions components sql_patterns
  .ok {
    project_name := String.mk (stripWarAll structure_info.file_name.data)
    war_info := structure_info
    spring_components := components
    sql_patterns := sql_patterns
    modernization_suggestions := suggestions
    summary := {
      total_components := components.total_components
      sql_patterns_found := sql_patterns.length
      high_priority_suggestions :=
        (suggestions.filter (fun s => s.priority = "HIGH")).length
      estimated_modernization_effort := "4-6 months"
      expected_roi := "75% maintenance efficiency improvement" } }

/-! ### Task registry and lifecycle

The registry `analysis_tasks` is a Python dict from task id to the task
dict; it is modelled as an association list where assignment replaces any
earlier binding.  Timestamps carry no verified content and are modelled
as `Option Unit` (key present / absent). -/

/-- Values of `task['status']` occurring in the source. -/
inductive Status where
  | pending
  | processing
  | completed
  | failed
deriving Repr, DecidableEq, Inhabited

/-- The per-task dictionary stored in `analysis_tasks`.  Keys that are
only added later (`result`, `error`, `end_time`) are `Option`s, `none`
standing for an absent key (`task.get(...)` then yields `None`). -/
structure Task where
  task_id : String
  status : Status
  progress : Nat
  message : String
  start_time : Option Unit
  end_time : Option Unit
  file_path : String
  file_name : String
  result : Option AnalysisResultRec
  error : Option String
deriving Repr, DecidableEq, Inhabited

/-- The global registry `analysis_tasks`. -/
def Registry := List (String × Task)

instance : DecidableEq Registry := by
  unfold Registry
  infer_instance

/-- Python dict assignment `analysis_tasks[task_id] = task`: binds the key,
replacing any existing binding. -/
def dictSet (reg : Registry) (key : String) (t : Task) : Registry :=
  (key, t) :: reg.filter (fun p => p.1 ≠ key)

/-- Python `task_id in analysis_tasks`. -/
def dictMem (reg : Registry) (key : String) : Bool :=
  reg.any (fun p => p.1 = key)

/-- Python `analysis_tasks[task_id]` lookup. -/
def dictGet (reg : Registry) (key : String) : Option Task :=
  (reg.find? (fun p => p.1 = key)).map (·.2)

/-- An `HTTPException(status_code=..., detail=...)`. -/
structure HTTPError where
  status_code : Nat
  detail : String
deriving Repr, DecidableEq

/-- The upload size limit of the `/analyze` endpoint: `100 * 1024 * 1024`. -/
def uploadLimit : Nat := 100 * 1024 * 1024

/-- The fresh task dict created by `analyze_war_file` after validation. -/
def initialTask (task_id filename : String) : Task :=
  { task_id := task_id
    status := .pending
    progress := 0
    message := "準備開始分析..."
    start_time := some ()
    end_time := none
    file_path := "/tmp/" ++ task_id ++ "_" ++ filename
    file_name := filename
    result := none
    error := none }

/-- Endpoint `POST /analyze` (`analyze_war_file`): validates the filename extension
and the content length, then writes the upload to a temporary path and
registers the fresh task.  `task_id` stands for the generated
`uuid.uuid4()` value, `fileSize` for `len(content)`.  The handler is
state-passing on the registry: both `raise HTTPException` statements run
before anything touches `analysis_tasks`, so in the error cases the
registry comes back exactly as it went in. -/
def analyze_war_file (reg : Registry) (filename : String) (fileSize : Nat)
    (task_id : String) : Registry × Except HTTPError String :=
  if ¬ strEndsWith filename ".war" then
    (reg, .error { status_code := 400, detail := "只接受.war檔案" })
  else if fileSize > uploadLimit then
    (reg, .error { status_code := 400, detail := "檔案過大，請上傳小於100MB的WAR檔案" })
  else
    (dictSet reg task_id (initialTask task_id filename), .ok task_id)

/-! ### Task runner (`perform_analysis`)

`perform_analysis` is an `async def` running on the single event loop.
Control can leave it only at its `await asyncio.sleep(...)` calls, so a
poller can observe the task dict exactly in the states it has at those
suspension points (and after the coroutine finishes); the mutations
between two awaits are atomic for every other coroutine.  The trace below
lists precisely these observable snapshots.  The pipeline call
`analyzer.analyze_war(...)` is synchronous and is the only fallible
statement of the `try` block; its archive contents are passed explicitly
(`none` = unreadable container). -/

/-- Snapshot of the task at the first suspension point: `status` was set to
`processing` and checkpoint 20 was written. -/
def checkpointTask (t : Task) (progress : Nat) (message : String) : Task :=
  { t with progress := progress, message := message }

/-- Terminal mutation of the `try` block: on pipeline success checkpoint
100, status `completed`, `end_time`, `result`; on a pipeline exception the
`except` block writes status `failed`, `error := str(e)`, `end_time`. -/
def finishTask (t : Task) (outcome : Except String AnalysisResultRec) : Task :=
  match outcome with
  | .ok r =>
    { t with progress := 100, message := "分析完成！", status := .completed
             end_time := some (), result := some r }
  | .error e =>
    { t with status := .failed, error := some e, end_time := some () }

/-- Observable snapshots of the task dict while `perform_analysis(task_id)`
runs, in order: the state at creation, the four checkpoint states at the
`await` suspension points, and the terminal state. -/
def perform_analysis_trace (t0 : Task) (archive : Option (List String)) :
    List Task :=
  let s1 := checkpointTask { t0 with status := .processing } 20 "解析WAR檔案結構..."
  let s2 := checkpointTask s1 40 "檢測Spring框架配置..."
  let s3 := checkpointTask s2 60 "分析Spring組件架構..."
  let s4 := checkpointTask s3 80 "識別SQL執行模式..."
  let s5 := finishTask s4 (analyze_war t0.file_path archive)
  [t0, s1, s2, s3, s4, s5]

/-- Result of one complete `perform_analysis` run: the task's final state
and whether the temporary upload file still exists afterwards. -/
structure RunOutcome where
  task : Task
  fileExistsAfter : Bool
deriving Repr, DecidableEq

/-- Coroutine `perform_analysis(task_id)` end to end, `finally` block included.
`fileExists` says whether the temporary path exists when the `finally`
block runs; `removeOk` says whether `os.remove` succeeds there (when it
raises, the bare `except: pass` swallows the error and the file remains).
No exception escapes the coroutine. -/
def perform_analysis (t0 : Task) (archive : Option (List String))
    (fileExists removeOk : Bool) : RunOutcome :=
  let final := (perform_analysis_trace t0 archive).getLast!
  { task := final
    fileExistsAfter := if fileExists then (if removeOk then false else true) else false }

/-- The response model of `GET /status/{task_id}` (`AnalysisResult` in the
source): absent `result`/`error` keys are projected to `None`. -/
structure StatusResponse where
  task_id : String
  status : Status
  progress : Nat
  message : String
  result : Option AnalysisResultRec
  error : Option String
deriving Repr, DecidableEq

/-- Endpoint `GET /status/{task_id}` (`get_analysis_status`). -/
def get_analysis_status (reg : Registry) (task_id : String) :
    Except HTTPError StatusResponse :=
  match dictGet reg task_id with
  | none => .error { status_code := 404, detail := "任務不存在" }
  | some task =>
    .ok { task_id := task.task_id
          status := task.status
          progress := task.progress
          message := task.message
          result := task.result
          error := task.error }

/-! ### Module import semantics (name resolution of the annotations)

Python evaluates every annotation expression eagerly: the module-level
annotated assignment on line 42, the pydantic model fields, and the
parameter/return annotations of each `def` when the `def` statement of
the class body executes.  A name in such a position must resolve in the
enclosing scopes (module globals as established by the `import`
statements already executed, then builtins) or the interpreter raises
`NameError` and loading the module fails. -/

/-- The names line 10 imports from `typing`:
`from typing import Optional, Dict, Any`. -/
def typingImportedNames : List String := ["Optional", "Dict", "Any"]

/-- Builtin names used in annotation position by the analysis core. -/
def builtinAnnotationNames : List String := ["str", "int"]

/-- Whether an annotation name of the analysis core resolves when the
class bodies execute. -/
def resolvesAnnotationName (n : String) : Bool :=
  typingImportedNames.contains n || builtinAnnotationNames.contains n

/-- Every name in annotation position, in the order the interpreter
evaluates them while loading the module: the `analysis_tasks` annotation
(line 42), the `AnalysisResult` pydantic fields (lines 44-51), then the
method signatures of `SimplifiedWARAnalyzer` in source order
(`analyze_war_structure` line 59, `analyze_spring_components` line 105,
`analyze_sql_patterns` line 148, `generate_modernization_suggestions`
line 172, `analyze_war` line 209).  Execution aborts at the first name
that does not resolve. -/
def moduleAnnotationNames : List String :=
  ["Dict", "str", "Dict", "str", "Any",
   "str", "str", "int", "str", "Optional", "Dict", "Optional", "str",
   "str", "Dict",
   "Dict", "Dict",
   "Dict", "List", "Dict",
   "Dict", "List", "List", "Dict",
   "str", "Dict"]

/-- Loading the module: the first annotation name that does not resolve
raises `NameError` at import time; only if all resolve does the module
finish loading and the FastAPI application object come into existence. -/
def moduleLoad : Except String Unit :=
  match moduleAnnotationNames.find? (fun n => ¬ resolvesAnnotationName n) with
  | some n => .error ("NameError: name " ++ n ++ " is not defined")
  | none => .ok ()

/-! ### Concrete inputs used by the boundary and scenario instances -/

/-- Structure facts of an archive with zero compiled units (estimator floor
boundary). -/
def si0 : StructureInfo :=
  { file_name := "x.war", web_inf_found := false, spring_detected := false
    spring_version := none, total_classes := 0, total_jars := 0, jar_files := [] }

/-- A registry that already holds an entry for identifier `t1`. -/
def regDup : Registry := [("t1", initialTask "t1" "a.war")]

/-- Entry list of the end-to-end scenario archive: 200 compiled-unit
entries and one Spring library entry. -/
def exampleArchive : List String :=
  (List.range 200).map (fun i => "com/x/Class" ++ toString i ++ ".class") ++
    ["WEB-INF/lib/spring-core-5.3.2.jar"]

/-! ### Helper lemmas -/

/-- A Python `for`-loop appending one element per index is the map over the
index range. -/
theorem foldl_append_eq_map {α : Type} (f : Nat → α) (l : List Nat) (init : List α) :
    l.foldl (fun acc i => acc ++ [f i]) init = init ++ l.map f := by
  induction l generalizing init with
  | nil => simp
  | cons a t ih => simp [List.foldl_cons, ih]

/-- Removing `.war` occurrences never lengthens the string. -/
theorem stripWarAll_length_le (l : List Char) : (stripWarAll l).length ≤ l.length := by
  induction l using stripWarAll.induct <;> simp [stripWarAll] <;> omega

/-- When no `.war` occurrence starts at the head, `stripWarAll` keeps the
head character. -/
theorem stripWarAll_cons_ne (c : Char) (t : List Char)
    (hx : ∀ t', ¬(c = '.' ∧ t = 'w' :: 'a' :: 'r' :: t')) :
    stripWarAll (c :: t) = c :: stripWarAll t := by
  rw [stripWarAll.eq_def]
  split
  · next rest heq =>
    rw [List.cons_eq_cons] at heq
    exact absurd ⟨heq.1, heq.2⟩ (hx rest)
  · next c' rest heq =>
    rw [List.cons_eq_cons] at heq
    rw [heq.1, heq.2]
  · next heq => simp at heq

/-- If a string holds no `.war` occurrence, appending a final `.war` and
removing all occurrences gives the string back: the appended suffix is the
single occurrence (no occurrence can span the boundary). -/
theorem stripWarAll_append_war (l : List Char) (h : stripWarAll l = l) :
    stripWarAll (l ++ ['.', 'w', 'a', 'r']) = l := by
  induction l using stripWarAll.induct with
  | case1 rest ih =>
    exfalso
    have hlen := stripWarAll_length_le rest
    simp only [stripWarAll] at h
    apply_fun List.length at h
    simp at h
    omega
  | case2 c rest hx ih =>
    have h1 : stripWarAll (c :: rest) = c :: stripWarAll rest :=
      stripWarAll_cons_ne c rest (fun t' hct => hx t' hct.1 hct.2)
    rw [h1, List.cons_eq_cons] at h
    have hr := ih h.2
    have hx2 : ∀ t', ¬(c = '.' ∧ rest ++ ['.', 'w', 'a', 'r'] = 'w' :: 'a' :: 'r' :: t') := by
      intro t' ⟨hc, hw⟩
      rcases rest with _ | ⟨r1, _ | ⟨r2, _ | ⟨r3, rest'⟩⟩⟩ <;>
        simp_all [List.cons_eq_cons]
    rw [List.cons_append, stripWarAll_cons_ne c _ hx2, hr]
  | case3 => decide

/-- Function `os.path.basename` is the identity on slash-free names. -/
theorem os_path_basename_eq_self (s : String) (h : ∀ c ∈ s.data, c ≠ '/') :
    os_path_basename s = s := by
  unfold os_path_basename
  rw [List.takeWhile_eq_self_iff.mpr ?_, List.reverse_reverse]
  · intro c hc
    simp only [List.mem_reverse] at hc
    simp [h c hc]

/-- The version-extraction loop returns the first scan hit, i.e. the
`List.findSome?` of the per-jar regex search. -/
theorem firstVersion_eq_findSome (jars : List String) :
    firstVersion jars = jars.findSome? (fun jar => (reSearchVersion jar.data).map String.mk) := by
  induction jars with
  | nil => rfl
  | cons j rest ih =>
    simp only [firstVersion, List.findSome?_cons]
    cases reSearchVersion j.data <;> simp [ih]

/-- On a readable archive the pipeline entry point always succeeds. -/
theorem analyze_war_some_isOk (p : String) (fl : List String) :
    ∃ r, analyze_war p (some fl) = .ok r := ⟨_, rfl⟩

/-! ### Claim theorems -/

/-- C1: loading the module fails: the signatures of `analyze_sql_patterns`
and `generate_modernization_suggestions` reference the name `List`, but
line 10 imports only `Optional`, `Dict` and `Any` from `typing`, so
evaluating the class body raises `NameError` at import time — the module
never finishes loading and no operation of the program is executable. -/
theorem C1_import_fails :
    moduleLoad = .error "NameError: name List is not defined" ∧
    moduleLoad ≠ .ok () ∧
    moduleAnnotationNames.find? (fun n => ¬ resolvesAnnotationName n) = some "List" ∧
    "List" ∉ typingImportedNames := by
  refine ⟨rfl, fun h => ?_, rfl, by decide⟩
  exact Except.noConfusion h

/-- C5: `/analyze` rejects with HTTP 400 exactly when the filename does not
end in `.war` or the content length strictly exceeds `100 * 1024 * 1024`
bytes; exactly 100 MiB is accepted, one byte more is rejected; and any
rejection leaves the task registry unchanged. -/
theorem C5_upload_validation (reg : Registry) (filename tid : String) (fileSize : Nat) :
    ((strEndsWith filename ".war" = false ∨ 100 * 1024 * 1024 < fileSize) →
      (analyze_war_file reg filename fileSize tid).1 = reg ∧
      ∃ d, (analyze_war_file reg filename fileSize tid).2 = .error ⟨400, d⟩) ∧
    (strEndsWith filename ".war" = true → fileSize ≤ 100 * 1024 * 1024 →
      (analyze_war_file reg filename fileSize tid).2 = .ok tid ∧
      dictGet (analyze_war_file reg filename fileSize tid).1 tid =
        some (initialTask tid filename)) ∧
    (strEndsWith filename ".war" = true →
      (analyze_war_file reg filename (100 * 1024 * 1024) tid).2 = .ok tid ∧
      (analyze_war_file reg filename (100 * 1024 * 1024 + 1) tid).1 = reg ∧
      ∃ d, (analyze_war_file reg filename (100 * 1024 * 1024 + 1) tid).2 =
        .error ⟨400, d⟩) := by
  refine ⟨?_, ?_, ?_⟩
  · rintro (hext | hsize)
    · simp [analyze_war_file, hext, uploadLimit]
    · by_cases hext : strEndsWith filename ".war" <;>
        simp [analyze_war_file, hext, uploadLimit, Nat.not_le.mpr hsize, hsize]
  · intro hext hsize
    simp [analyze_war_file, hext, uploadLimit, Nat.not_lt.mpr hsize, dictGet, dictSet]
  · intro hext
    refine ⟨?_, ?_, ?_⟩ <;> simp [analyze_war_file, hext, uploadLimit]

/-- C5 witness: concrete accepted upload at the 100 MiB boundary and
concrete rejected oversized upload. -/
theorem C5_upload_validation_witness :
    (analyze_war_file [] "a.war" (100 * 1024 * 1024) "t").2 = .ok "t" ∧
    (analyze_war_file [] "a.txt" 5 "t").1 = [] := by
  refine ⟨((C5_upload_validation [] "a.war" "t" (100 * 1024 * 1024)).2.2 (by decide)).1, ?_⟩
  exact ((C5_upload_validation [] "a.txt" "t" 5).1 (Or.inl (by decide))).1

/-- C6: `analyze_spring_components` returns role counts
`max 1 (n / 20)` / `max 1 (n / 15)` / `max 1 (n / 25)` (so 1/1/1 at
`n = 0`), and the descriptor list is all controllers, then all services,
then all repositories, truncated to the first 10, each descriptor named
`<Role><index>` with `estimated = true`. -/
theorem C6_component_estimates (si : StructureInfo) :
    (analyze_spring_components si).controllers = max 1 (si.total_classes / 20) ∧
    (analyze_spring_components si).services = max 1 (si.total_classes / 15) ∧
    (analyze_spring_components si).repositories = max 1 (si.total_classes / 25) ∧
    (si.total_classes = 0 →
      (analyze_spring_components si).controllers = 1 ∧
      (analyze_spring_components si).services = 1 ∧
      (analyze_spring_components si).repositories = 1) ∧
    (analyze_spring_components si).components =
      ((List.range (max 1 (si.total_classes / 20))).map (fun i =>
          ({ name := "Controller" ++ toString (i + 1), type := "Controller"
             package := "com.nbs.web", estimated := true } : Component)) ++
        (List.range (max 1 (si.total_classes / 15))).map (fun i =>
          ({ name := "Service" ++ toString (i + 1), type := "Service"
             package := "com.nbs.service", estimated := true } : Component)) ++
        (List.range (max 1 (si.total_classes / 25))).map (fun i =>
          ({ name := "Repository" ++ toString (i + 1), type := "Repository"
             package := "com.nbs.dao", estimated := true } : Component))).take 10 ∧
    (∀ c ∈ (analyze_spring_components si).components, c.estimated = true) := by
  have hcomp : (analyze_spring_components si).components =
      ((List.range (max 1 (si.total_classes / 20))).map mkController ++
        (List.range (max 1 (si.total_classes / 15))).map mkService ++
        (List.range (max 1 (si.total_classes / 25))).map mkRepository).take 10 := by
    simp [analyze_spring_components, foldl_append_eq_map, List.append_assoc]
  refine ⟨rfl, rfl, rfl, fun h => by simp [analyze_spring_components, h], ?_, ?_⟩
  · rw [hcomp]; rfl
  · intro c hc
    rw [hcomp] at hc
    have := List.mem_of_mem_take hc
    simp only [List.mem_append, List.mem_map] at this
    rcases this with (⟨i, _, hi⟩ | ⟨i, _, hi⟩) | ⟨i, _, hi⟩ <;>
      simp [← hi, mkController, mkService, mkRepository]

/-- C6 witness: the zero-compiled-units archive hits the 1/1/1 floor. -/
theorem C6_component_estimates_witness :
    (analyze_spring_components si0).controllers = 1 ∧
    (analyze_spring_components si0).services = 1 ∧
    (analyze_spring_components si0).repositories = 1 :=
  (C6_component_estimates si0).2.2.2.1 rfl

/-- C7 counterexample: the claim says the synthesized source file name
carries the compiled-unit extension (`.class`, the extension the inspector
counts compiled units by); the code emits `.java`.  At an archive with 0
compiled units, the only finding's file is `LegacyClass1.java`, not
`LegacyClass1.class`. -/
theorem C7_counterexample :
    ((analyze_sql_patterns si0).headD default).file = "LegacyClass1.java" ∧
    ((analyze_sql_patterns si0).headD default).file ≠
      "LegacyClass1" ++ compiledUnitExtension := by decide

/-- C7 (amended: the synthesized file name ends in `.java`, not in the
compiled-unit extension): `analyze_sql_patterns` returns exactly
`min 10 (max 1 (n / 10))` findings (1 when `n = 0`); the finding at index
`i` cycles `pattern_type` through
`executeSQL / createStatement().execute / prepareStatement` and
`risk_level` through `HIGH / CRITICAL / MEDIUM` by `i mod 3`, names the
file `LegacyClass<i+1>.java`, and references table `table_<i+1>`. -/
theorem C7_sql_pattern_estimates (si : StructureInfo) :
    (analyze_sql_patterns si).length = min 10 (max 1 (si.total_classes / 10)) ∧
    (si.total_classes = 0 → (analyze_sql_patterns si).length = 1) ∧
    (∀ (i : Nat) (h : i < (analyze_sql_patterns si).length),
      (analyze_sql_patterns si)[i] =
        { file := "LegacyClass" ++ toString (i + 1) ++ ".java"
          pattern_type :=
            ["executeSQL", "createStatement().execute", "prepareStatement"].getD (i % 3) ""
          sql_statement := "SELECT * FROM table_" ++ toString (i + 1) ++ " WHERE id = ?"
          risk_level := ["HIGH", "CRITICAL", "MEDIUM"].getD (i % 3) ""
          modernization_suggestion := "Replace with JPA Repository pattern" }) := by
  have hps : analyze_sql_patterns si =
      (List.range (min 10 (max 1 (si.total_classes / 10)))).map mkSqlPattern := by
    simp [analyze_sql_patterns, foldl_append_eq_map]
  refine ⟨by rw [hps]; simp, fun h => by rw [hps]; simp [h], ?_⟩
  intro i h
  have hi : i < min 10 (max 1 (si.total_classes / 10)) := by
    rw [hps] at h; simpa using h
  have : (analyze_sql_patterns si)[i] = mkSqlPattern i := by
    simp [hps]
  rw [this]
  have h3 : i % 3 = 0 ∨ i % 3 = 1 ∨ i % 3 = 2 := by omega
  rcases h3 with h3 | h3 | h3 <;>
    simp [mkSqlPattern, pattern_types, risk_levels, h3]

/-- C7 witness: at the zero-compiled-units boundary the amended claim
yields exactly one finding. -/
theorem C7_sql_pattern_estimates_witness :
    (analyze_sql_patterns si0).length = 1 :=
  (C7_sql_pattern_estimates si0).2.1 rfl

/-- C9 counterexample: creating a registry entry for an identifier already
present does not fail with `DuplicateTask`: the submission path succeeds
and replaces the existing entry (plain dict assignment). -/
theorem C9_counterexample :
    dictMem regDup "t1" = true ∧
    (analyze_war_file regDup "b.war" 0 "t1").2.toOption = some "t1" ∧
    dictGet (analyze_war_file regDup "b.war" 0 "t1").1 "t1" =
      some (initialTask "t1" "b.war") ∧
    initialTask "t1" "b.war" ≠ initialTask "t1" "a.war" := by decide

/-- C9 (amended: creating a registry entry for an identifier that already
exists succeeds and overwrites the existing entry — the registry is a
plain dict and the assignment replaces the binding; no `DuplicateTask`
failure exists in the code). -/
theorem C9_create_overwrites (reg : Registry) (tid filename : String) (fileSize : Nat)
    (hdup : dictMem reg tid = true)
    (hext : strEndsWith filename ".war" = true)
    (hsize : fileSize ≤ uploadLimit) :
    (analyze_war_file reg filename fileSize tid).2.toOption = some tid ∧
    dictGet (analyze_war_file reg filename fileSize tid).1 tid =
      some (initialTask tid filename) := by
  have hlt : ¬ uploadLimit < fileSize := Nat.not_lt.mpr hsize
  simp [analyze_war_file, hext, hlt, dictGet, dictSet, Except.toOption]

/-- C9 witness: overwrite at a concrete duplicate identifier. -/
theorem C9_create_overwrites_witness :
    (analyze_war_file regDup "b.war" 0 "t1").2.toOption = some "t1" :=
  (C9_create_overwrites regDup "t1" "b.war" 0 (by decide) (by decide) (by decide)).1

/-- C2: in every state a submitted task's runner makes observable,
`result` is attached iff the status is `completed` and `error` iff the
status is `failed` (so before a terminal state neither is attached and in
a terminal state exactly one is); the run ends in a terminal state; and
the status endpoint projects the task with its `result`/`error` exactly
as stored (absent keys as `None`). -/
theorem C2_result_error_iff_terminal (tid filename : String)
    (archive : Option (List String)) :
    (∀ s ∈ perform_analysis_trace (initialTask tid filename) archive,
      (s.result.isSome ↔ s.status = .completed) ∧
      (s.error.isSome ↔ s.status = .failed) ∧
      ¬(s.result.isSome ∧ s.error.isSome) ∧
      ((s.status = .completed ∨ s.status = .failed) →
        (s.result.isSome ∨ s.error.isSome)) ∧
      (∀ reg, dictGet reg tid = some s →
        get_analysis_status reg tid =
          .ok ⟨tid, s.status, s.progress, s.message, s.result, s.error⟩)) ∧
    ((perform_analysis_trace (initialTask tid filename) archive).getLast!.status
        = .completed ∨
     (perform_analysis_trace (initialTask tid filename) archive).getLast!.status
        = .failed) := by
  constructor
  · intro s hs
    have hproj : ∀ reg, dictGet reg tid = some s →
        get_analysis_status reg tid =
          .ok ⟨tid, s.status, s.progress, s.message, s.result, s.error⟩ := by
      intro reg hreg
      have htid : s.task_id = tid := by
        simp only [perform_analysis_trace, checkpointTask, finishTask,
          initialTask, List.mem_cons, List.not_mem_nil, or_false] at hs
        rcases hs with h | h | h | h | h | h <;> subst h <;>
          cases h' : analyze_war ("/tmp/" ++ tid ++ "_" ++ filename) archive <;>
            simp [h']
      simp only [get_analysis_status, hreg]
      rw [← htid]
    refine ⟨?_, ?_, ?_, ?_, hproj⟩ <;>
      (simp only [perform_analysis_trace, checkpointTask, finishTask, initialTask,
        List.mem_cons, List.not_mem_nil, or_false] at hs
       rcases hs with h | h | h | h | h | h <;> subst h <;>
        cases h' : analyze_war ("/tmp/" ++ tid ++ "_" ++ filename) archive <;>
          simp [h'])
  · simp only [perform_analysis_trace, checkpointTask, finishTask, initialTask]
    cases h' : analyze_war ("/tmp/" ++ tid ++ "_" ++ filename) archive
    · exact Or.inr rfl
    · exact Or.inl rfl

/-- C2 witness: the terminal state of a concrete failed run has an error
attached and no result. -/
theorem C2_result_error_iff_terminal_witness :
    ((perform_analysis_trace (initialTask "t" "a.war") none).getLast!.result.isSome ↔
      (perform_analysis_trace (initialTask "t" "a.war") none).getLast!.status
        = .completed) := by
  have h := (C2_result_error_iff_terminal "t" "a.war" none).1
    ((perform_analysis_trace (initialTask "t" "a.war") none).getLast!)
    (by decide)
  exact h.1

/-- C3: the progress values a submitted task's runner writes are
non-decreasing over the observable trace, start at 0, are exactly 100 when
the status is `completed`, and on failure stay frozen at the last
checkpoint written before the pipeline call (80). -/
theorem C3_progress_monotone (tid filename : String)
    (archive : Option (List String)) :
    List.Chain' (fun a b => a.progress ≤ b.progress)
      (perform_analysis_trace (initialTask tid filename) archive) ∧
    (perform_analysis_trace (initialTask tid filename) archive).head!.progress = 0 ∧
    (∀ s ∈ perform_analysis_trace (initialTask tid filename) archive,
      s.status = .completed → s.progress = 100) ∧
    ((perform_analysis_trace (initialTask tid filename) archive).getLast!.status
        = .failed →
      (perform_analysis_trace (initialTask tid filename) archive).getLast!.progress
        = 80) ∧
    (archive = none →
      (perform_analysis_trace (initialTask tid filename) archive).getLast!.status
        = .failed ∧
      (perform_analysis_trace (initialTask tid filename) archive).getLast!.progress
        = 80) := by
  refine ⟨?_, ?_, ?_, ?_, ?_⟩
  · simp only [perform_analysis_trace, checkpointTask, finishTask, initialTask]
    cases h' : analyze_war ("/tmp/" ++ tid ++ "_" ++ filename) archive <;>
      simp [List.chain'_cons]
  · rfl
  · intro s hs
    simp only [perform_analysis_trace, checkpointTask, finishTask, initialTask,
      List.mem_cons, List.not_mem_nil, or_false] at hs
    rcases hs with h | h | h | h | h | h <;> subst h <;>
      cases h' : analyze_war ("/tmp/" ++ tid ++ "_" ++ filename) archive <;> simp [h']
  · simp only [perform_analysis_trace, checkpointTask, finishTask, initialTask]
    cases h' : analyze_war ("/tmp/" ++ tid ++ "_" ++ filename) archive
    · exact fun _ => rfl
    · exact fun hc => nomatch hc
  · rintro rfl
    exact ⟨rfl, rfl⟩

/-- C3 witness: a concrete failed run freezes progress at 80. -/
theorem C3_progress_monotone_witness :
    (perform_analysis_trace (initialTask "t" "a.war") none).getLast!.status
      = Status.failed ∧
    (perform_analysis_trace (initialTask "t" "a.war") none).getLast!.progress = 80 :=
  (C3_progress_monotone "t" "a.war" none).2.2.2.2 rfl

/-- C4: every pipeline failure is caught: the runner ends the task
`failed` with the failure's (non-empty) description and a completion
timestamp, never leaves it `processing`; the task's final state does not
depend on whether the temporary file exists or its deletion succeeds
(deletion failure is swallowed); and the file is gone afterwards whenever
`os.remove` succeeds. -/
theorem C4_failure_caught_and_cleanup (tid filename : String)
    (archive : Option (List String)) (fileExists removeOk : Bool) :
    ((perform_analysis (initialTask tid filename) archive fileExists removeOk).task.status
        = .completed ∨
     (perform_analysis (initialTask tid filename) archive fileExists removeOk).task.status
        = .failed) ∧
    ((perform_analysis (initialTask tid filename) archive fileExists removeOk).task.status
        ≠ .processing) ∧
    (∀ e, analyze_war (initialTask tid filename).file_path archive = .error e →
      (perform_analysis (initialTask tid filename) archive fileExists removeOk).task.status
          = .failed ∧
      (perform_analysis (initialTask tid filename) archive fileExists removeOk).task.error
          = some e ∧
      e ≠ "" ∧
      (perform_analysis (initialTask tid filename) archive fileExists removeOk).task.end_time
          = some ()) ∧
    (∀ fe ro, (perform_analysis (initialTask tid filename) archive fe ro).task =
      (perform_analysis (initialTask tid filename) archive fileExists removeOk).task) ∧
    (removeOk = true →
      (perform_analysis (initialTask tid filename) archive fileExists removeOk).fileExistsAfter
        = false) ∧
    ((perform_analysis (initialTask tid filename) archive fileExists removeOk).fileExistsAfter
        = true → removeOk = false ∧ fileExists = true) := by
  refine ⟨?_, ?_, ?_, fun fe ro => rfl, ?_, ?_⟩
  · simp only [perform_analysis, perform_analysis_trace, checkpointTask, finishTask,
      initialTask]
    cases h' : analyze_war ("/tmp/" ++ tid ++ "_" ++ filename) archive
    · exact Or.inr rfl
    · exact Or.inl rfl
  · simp only [perform_analysis, perform_analysis_trace, checkpointTask, finishTask,
      initialTask]
    cases h' : analyze_war ("/tmp/" ++ tid ++ "_" ++ filename) archive
    · exact fun hc => nomatch hc
    · exact fun hc => nomatch hc
  · intro e he
    cases archive with
    | some fl =>
      obtain ⟨r, hr⟩ := analyze_war_some_isOk (initialTask tid filename).file_path fl
      rw [hr] at he
      exact nomatch he
    | none =>
      have h0 : analyze_war (initialTask tid filename).file_path none =
          (Except.error "File is not a zip file" : Except String AnalysisResultRec) := rfl
      rw [h0] at he
      injection he with h1
      subst h1
      exact ⟨rfl, rfl, by decide, rfl⟩
  · rintro rfl
    cases fileExists <;> rfl
  · cases fileExists <;> cases removeOk <;> simp [perform_analysis]

/-- C4 witness: a concrete corrupt archive ends `failed` with the
`BadZipFile` description attached, and the temporary file is removed. -/
theorem C4_failure_caught_and_cleanup_witness :
    (perform_analysis (initialTask "t" "a.war") none true true).task.status
      = Status.failed ∧
    (perform_analysis (initialTask "t" "a.war") none true true).task.error
      = some "File is not a zip file" ∧
    (perform_analysis (initialTask "t" "a.war") none true true).fileExistsAfter
      = false := by
  have h := C4_failure_caught_and_cleanup "t" "a.war" none true true
  have he := h.2.2.1 "File is not a zip file" (by rfl)
  exact ⟨he.1, he.2.1, h.2.2.2.2.1 rfl⟩

/-- Project-name assembly: for every readable archive the assembled
result's `project_name` is the path's basename with every `.war`
occurrence removed. -/
theorem analyze_war_project_name (p : String) (fl : List String) :
    (analyze_war p (some fl)).toOption.map (fun r => r.project_name) =
      some (String.mk (stripWarAll (os_path_basename p).data)) := by
  cases hweb : fl.any (fun f => hasSubstring "WEB-INF".data f.data) <;>
    cases hsp : (fl.filter isSpringJar).isEmpty <;>
      simp [analyze_war, analyze_war_structure, hweb, hsp, Except.toOption,
        bind, Except.bind]

set_option maxRecDepth 8000 in
/-- C8: the inspector classifies as library entries exactly the entry
names containing the library-signal substring case-insensitively and
ending with the library extension; when any exist it sets
framework-detected, keeps the first 5 in archive order, and takes the
version from the first dotted-integer token found scanning them in order;
the 200-compiled-units / `spring-core-5.3.2.jar` archive yields
`total_classes = 200`, `total_jars = 1`, detection, version `5.3.2`. -/
theorem C8_library_classification (p : String) (fl : List String) (si : StructureInfo)
    (h : analyze_war_structure p (some fl) = .ok si) :
    (∀ f, (f ∈ fl.filter isSpringJar ↔
      (f ∈ fl ∧ hasSubstring "spring".data (strToLower f) = true ∧
        strEndsWith f libraryExtension = true))) ∧
    (si.spring_detected = true ↔ fl.filter isSpringJar ≠ []) ∧
    (fl.filter isSpringJar ≠ [] →
      si.jar_files = (fl.filter isSpringJar).take 5 ∧
      si.spring_version = (fl.filter isSpringJar).findSome?
        (fun jar => (reSearchVersion jar.data).map String.mk)) ∧
    (fl.filter isSpringJar = [] → si.jar_files = [] ∧ si.spring_version = none) ∧
    si.total_classes = (fl.filter (fun f => strEndsWith f compiledUnitExtension)).length ∧
    si.total_jars = (fl.filter (fun f => strEndsWith f libraryExtension)).length ∧
    (analyze_war_structure "/tmp/t_a.war" (some exampleArchive)).toOption =
      some ⟨"t_a.war", true, true, some "5.3.2", 200, 1,
        ["WEB-INF/lib/spring-core-5.3.2.jar"]⟩ := by
  have hmem : ∀ f, f ∈ fl.filter isSpringJar ↔
      (f ∈ fl ∧ hasSubstring "spring".data (strToLower f) = true ∧
        strEndsWith f libraryExtension = true) := by
    intro f
    simp [List.mem_filter, isSpringJar, Bool.and_eq_true]
  have hconc : (analyze_war_structure "/tmp/t_a.war" (some exampleArchive)).toOption =
      some ⟨"t_a.war", true, true, some "5.3.2", 200, 1,
        ["WEB-INF/lib/spring-core-5.3.2.jar"]⟩ := by decide
  simp only [analyze_war_structure, Except.ok.injEq] at h
  subst h
  refine ⟨hmem, ?_, ?_, ?_, ?_, ?_, hconc⟩ <;>
    cases hsp : (fl.filter isSpringJar).isEmpty <;>
      cases hweb : fl.any (fun f => hasSubstring "WEB-INF".data f.data) <;>
        simp_all [firstVersion_eq_findSome, List.isEmpty_iff]

/-- C8 witness: a one-jar archive classified concretely. -/
theorem C8_library_classification_witness :
    ((⟨"x", false, true, some "1.2.3", 0, 1, ["spring-core-1.2.3.jar"]⟩ :
        StructureInfo).spring_detected = true ↔
      ["spring-core-1.2.3.jar"].filter isSpringJar ≠ []) :=
  (C8_library_classification "/tmp/x" ["spring-core-1.2.3.jar"]
    ⟨"x", false, true, some "1.2.3", 0, 1, ["spring-core-1.2.3.jar"]⟩ rfl).2.1

/-- C10 counterexample: the claim says interior occurrences of the
extension string are preserved; `str.replace('.war', '')` removes them:
for archive name `a.war.war` the project name is `a`, not `a.war`. -/
theorem C10_counterexample :
    (analyze_war "a.war.war" (some [])).toOption.map (fun r => r.project_name)
        = some "a" ∧
    (analyze_war "a.war.war" (some [])).toOption.map (fun r => r.project_name)
        ≠ some "a.war" := by decide

/-- C10 (amended: `project_name` is the archive name with *every*
non-overlapping `.war` occurrence removed, left to right — which equals
the name with the trailing extension stripped exactly when the name holds
no interior occurrence). -/
theorem C10_project_name (base : String) (archive : List String)
    (hslash : ∀ c ∈ base.data, c ≠ '/')
    (hnowar : stripWarAll base.data = base.data) :
    (analyze_war (base ++ ".war") (some archive)).toOption.map
        (fun r => r.project_name) = some base ∧
    (∀ p, (analyze_war p (some archive)).toOption.map (fun r => r.project_name) =
      some (String.mk (stripWarAll (os_path_basename p).data))) := by
  refine ⟨?_, fun p => analyze_war_project_name p archive⟩
  have hbn : os_path_basename (base ++ ".war") = base ++ ".war" := by
    apply os_path_basename_eq_self
    intro c hc
    rw [String.data_append] at hc
    rcases List.mem_append.mp hc with h | h
    · exact hslash c h
    · fin_cases h <;> decide
  rw [analyze_war_project_name, hbn,
    show (base ++ ".war").data = base.data ++ ['.', 'w', 'a', 'r'] from by
      rw [String.data_append],
    stripWarAll_append_war base.data hnowar]

/-- C10 witness: a clean stem gets exactly its extension stripped. -/
theorem C10_project_name_witness :
    (analyze_war ("app" ++ ".war") (some [])).toOption.map
      (fun r => r.project_name) = some "app" :=
  (C10_project_name "app" [] (by decide) (by decide)).1

end WarAnalyzer


